import Mathlib

/-!
Shallow embedding, in Lean 4, of the product ranking, category filtering,
cross-sell recommendation, solution-bundle and checkout-total logic of
`electronics_server_python/main.py`, together with theorems settling the
specification claims about that code.

Modelling conventions used throughout:

* Python `float` values (prices, sizes, scores) are modelled as exact
  rationals (`ℚ`); float literals such as `0.10` denote the corresponding
  rational.  IEEE-754 rounding is outside the model.
* Python `dict`-shaped products are modelled as structures whose fields are
  `Option`-typed where the source tolerates a missing key; `dict.get(k, d)`
  becomes `Option.getD`.  Truthiness tests (`if x:`) are modelled explicitly
  (`none`/`""`/`0`/`[]` are falsy).
* Python `set`s are modelled as lists used only through membership.
* `raise ValueError` is modelled with `Except String`.
* Python string methods (`lower`, `upper`, `strip`, `split`, `in`) are
  modelled by the executable functions below, with ASCII semantics.
* Non-string database identifiers (which the source passes through `str`)
  are modelled as their string image.
-/

set_option maxRecDepth 4000

namespace ElectronicsDemo

/-- Python `str.lower()` (ASCII semantics). -/
def pyLower (s : String) : String :=
  String.mk (s.toList.map Char.toLower)

/-- Python `str.upper()` (ASCII semantics). -/
def pyUpper (s : String) : String :=
  String.mk (s.toList.map Char.toUpper)

/-- Characters treated as whitespace by Python `str.strip()` / regex `\s`
(ASCII subset: space, tab, newline, carriage return, vertical tab, form feed). -/
def isPySpace (c : Char) : Bool :=
  c == ' ' || c == '\t' || c == '\n' || c == '\r' || c == Char.ofNat 11 || c == Char.ofNat 12

/-- Python `str.strip()` with no argument: drop leading and trailing whitespace. -/
def pyStrip (s : String) : String :=
  String.mk (((s.toList.dropWhile isPySpace).reverse.dropWhile isPySpace).reverse)

/-- Containment of `pat` as a contiguous run inside `s` (Python `pat in s` on lists of characters). -/
def listContainsSub (pat : List Char) : List Char → Bool
  | [] => pat.isEmpty
  | c :: rest => pat.isPrefixOf (c :: rest) || listContainsSub pat rest

/-- Python substring test `pat in s`. -/
def substr (pat s : String) : Bool :=
  listContainsSub pat.toList s.toList

/-- Python `s.split(",")`: split on every comma, keeping empty pieces. -/
def pySplitComma (s : String) : List String :=
  s.splitOn ","

/-- ASCII decimal digit test (model of regex `\d` / `str.isdigit` on ASCII). -/
def isAsciiDigit (c : Char) : Bool :=
  '0' ≤ c && c ≤ '9'

/-- Lower-case ASCII alphanumeric test (the character class `[a-z0-9]`). -/
def isLowerAlnum (c : Char) : Bool :=
  ('a' ≤ c && c ≤ 'z') || ('0' ≤ c && c ≤ '9')

/-- Helper for `pyNormalizeTokens`: accumulate the current alphanumeric run. -/
def pyNormalizeTokensAux : List Char → List Char → List String
  | [], acc => if acc.isEmpty then [] else [String.mk acc.reverse]
  | c :: cs, acc =>
    if isLowerAlnum c then pyNormalizeTokensAux cs (c :: acc)
    else (if acc.isEmpty then [] else [String.mk acc.reverse]) ++ pyNormalizeTokensAux cs []

/-- Maximal `[a-z0-9]` runs of a (lower-cased) character list, in order. -/
def pyNormalizeTokens (cs : List Char) : List String :=
  pyNormalizeTokensAux cs []

/-- Embedding of `_normalize_text`: lower-case, replace each maximal run of
characters outside `[a-z0-9]` by a single space, and strip the ends.  This is
realised by intercalating the maximal alphanumeric runs with single spaces. -/
def _normalize_text (value : String) : String :=
  String.intercalate " " (pyNormalizeTokens (pyLower value).toList)

/-- Digit run to a natural number (Python `int` of a digit string). -/
def digitsToNat (ds : List Char) : Nat :=
  ds.foldl (fun n c => 10 * n + (c.toNat - '0'.toNat)) 0

/-- Truncation toward zero, Python `int(q)` on an exact rational. -/
def pyIntTruncQ (q : ℚ) : ℤ :=
  if 0 ≤ q then ⌊q⌋ else ⌈q⌉

/-- Half-up rounding away from zero at integer precision, the rounding mode
`ROUND_HALF_UP` of Python `decimal`. -/
def roundHalfUpQ (q : ℚ) : ℤ :=
  if 0 ≤ q then ⌊q + 1/2⌋ else -⌊-q + 1/2⌋

/-- Python `float(s)` on the plain numeric forms
`[ws][sign](digits[.digits] | .digits)[(e|E)[sign]digits][ws]`; returns `none`
when the string does not parse (`ValueError`).  `inf`/`nan`/underscore forms
are outside the model. -/
def pyFloatQ (s : String) : Option ℚ :=
  let cs := s.toList.dropWhile isPySpace
  let signAndRest : Bool × List Char :=
    match cs with
    | '-' :: r => (true, r)
    | '+' :: r => (false, r)
    | r => (false, r)
  let neg := signAndRest.1
  let cs := signAndRest.2
  let ip := cs.takeWhile isAsciiDigit
  let cs := cs.dropWhile isAsciiDigit
  let fracAndRest : List Char × List Char :=
    match cs with
    | '.' :: r => (r.takeWhile isAsciiDigit, r.dropWhile isAsciiDigit)
    | r => ([], r)
  let fp := fracAndRest.1
  let cs := fracAndRest.2
  if ip.isEmpty && fp.isEmpty then none
  else
    let expParse : Bool × ℤ × List Char :=
      match cs with
      | 'e' :: r | 'E' :: r =>
        match r with
        | '-' :: r2 =>
          (!(r2.takeWhile isAsciiDigit).isEmpty,
            -(digitsToNat (r2.takeWhile isAsciiDigit) : ℤ), r2.dropWhile isAsciiDigit)
        | '+' :: r2 =>
          (!(r2.takeWhile isAsciiDigit).isEmpty,
            (digitsToNat (r2.takeWhile isAsciiDigit) : ℤ), r2.dropWhile isAsciiDigit)
        | r2 =>
          (!(r2.takeWhile isAsciiDigit).isEmpty,
            (digitsToNat (r2.takeWhile isAsciiDigit) : ℤ), r2.dropWhile isAsciiDigit)
      | r => (true, 0, r)
    if !expParse.1 then none
    else
      let rest := expParse.2.2.dropWhile isPySpace
      if !rest.isEmpty then none
      else
        let mag : ℚ :=
          ((digitsToNat ip : ℚ) + (digitsToNat fp : ℚ) / ((10 : ℚ) ^ fp.length))
            * (10 : ℚ) ^ (expParse.2.1)
        some (if neg then -mag else mag)

/-- Loosely-typed `price` value of a catalog row: a number, a numeric string,
or a `\x7b"amountMax": _, "amountMin": _\x7d` mapping. -/
inductive PriceVal where
  | num (q : ℚ)
  | str (s : String)
  | dict (amountMax : Option ℚ) (amountMin : Option ℚ)
deriving DecidableEq

/-- Loosely-typed category tags of a catalog row: a list of tag strings or a
comma-separated string. -/
inductive CatVal where
  | list (cats : List String)
  | str (s : String)
deriving DecidableEq

/-- A catalog product row, with every field optional, mirroring the
loosely-typed `Dict[str, Any]` rows the handlers receive. -/
structure Product where
  id : Option String := none
  name : Option String := none
  price : Option PriceVal := none
  descrizione_prodotto : Option String := none
  primaryCategories : Option CatVal := none
  categories : Option CatVal := none
  imageURLs : Option CatVal := none
deriving DecidableEq

/-- Python truthiness of an optional category-tags value
(`if product.get("primaryCategories"):`). -/
def catValTruthy : Option CatVal → Bool
  | none => false
  | some (.list l) => !l.isEmpty
  | some (.str s) => s ≠ ""

/-- Raw tag extraction used inside `filter_products_by_category`:
`str(cat).strip()` over a list, or split on commas and strip. -/
def rawCatsOfVal : CatVal → List String
  | .list l => l.map pyStrip
  | .str s => (pySplitComma s).map pyStrip

/-- The raw category strings `filter_products_by_category` collects from the
`primaryCategories` and `categories` fields (each only when truthy). -/
def filterRawCategories (p : Product) : List String :=
  (match p.primaryCategories with
   | some v => if catValTruthy (some v) then rawCatsOfVal v else []
   | none => []) ++
  (match p.categories with
   | some v => if catValTruthy (some v) then rawCatsOfVal v else []
   | none => [])

/-- The normalized (lower-cased, stripped, non-empty) category tags of a
product as computed in `filter_products_by_category`. -/
def filterProductCategories (p : Product) : List String :=
  (filterRawCategories p).filterMap
    (fun cat => if cat == "" then none else some (pyStrip (pyLower cat)))

/-- Embedding of `_extract_product_categories` (the cross-sell variant, which
strips but does not lower-case, and filters empties as in the source). -/
def _extract_product_categories (p : Product) : List String :=
  (match p.primaryCategories with
   | some (.list l) => (l.filter (fun c => c ≠ "")).map pyStrip
   | some (.str s) => ((pySplitComma s).map pyStrip).filter (fun c => c ≠ "")
   | none => []) ++
  (match p.categories with
   | some (.list l) => (l.filter (fun c => c ≠ "")).map pyStrip
   | some (.str s) => ((pySplitComma s).map pyStrip).filter (fun c => c ≠ "")
   | none => [])

/-- Embedding of the `get_price` closure of `rank_products_by_criteria`. -/
def get_price (product : Product) : ℚ :=
  match product.price with
  | none => 0
  | some pv =>
    let price_num : ℚ :=
      match pv with
      | .num q => q
      | .str s => (pyFloatQ s).getD 0
      | .dict amountMax amountMin =>
        let a := amountMax.getD 0
        if a ≠ 0 then a else amountMin.getD 0
    price_num

/-- Embedding of `_extract_price_from_product`. -/
def _extract_price_from_product (product : Product) : ℚ :=
  match product.price with
  | none => 0
  | some (.num q) => q
  | some (.str s) => (pyFloatQ s).getD 0
  | some (.dict amountMax amountMin) =>
    let candidate := amountMax.getD 0
    if candidate ≠ 0 then candidate else amountMin.getD 0

/-- The fixed three-entry category taxonomy `CATEGORY_MAPPING`. -/
def CATEGORY_MAPPING : List (String × List String) := [
  ("Video & TV",
    ["tv", "televisions", "tv accessories", "tv mounts", "projectors",
     "video projectors", "dvd players", "blu-ray players", "blu-ray",
     "video", "home theater"]),
  ("Informatica",
    ["computers", "desktop computers", "monitors", "tablets",
     "printers", "scanners", "computer accessories", "pc components",
     "input devices", "keyboards", "mice", "laptops"]),
  ("Audio",
    ["audio", "speakers", "wireless speakers", "bluetooth speakers",
     "headphones", "home audio", "home theater", "home theater systems",
     "microphones", "amplifiers", "stereos", "portable audio"])]

/-- The specific audio tags that trigger the home-theater disambiguation in
`filter_products_by_category`. -/
def SPECIFIC_AUDIO_TAGS : List String :=
  ["speakers", "wireless speakers", "bluetooth speakers", "headphones", "audio"]

/-- The `search_tags`-computation loop of `filter_products_by_category`:
first mapping entry whose main name or tag list matches wins, with the
home-theater disambiguation for requested `tv`/`televisions` or specific
audio tags. -/
def searchTagsFromMapping (category_lower : String) : List (String × List String) → List String
  | [] => []
  | (main_category, tags) :: rest =>
    if category_lower == pyLower main_category then
      tags.map (fun t => pyStrip (pyLower t))
    else if (tags.map pyLower).contains category_lower then
      if category_lower == "tv" || category_lower == "televisions" then
        let st := (tags.filter
          (fun t => !(pyLower t == "home theater" || pyLower t == "home theater systems"))).map
            (fun t => pyStrip (pyLower t))
        if st.contains category_lower then st else st ++ [category_lower]
      else if SPECIFIC_AUDIO_TAGS.contains category_lower then
        let st := (tags.filter
          (fun t => !(pyLower t == "home theater" || pyLower t == "home theater systems"))).map
            (fun t => pyStrip (pyLower t))
        if st.contains category_lower then st else st ++ [category_lower]
      else
        tags.map (fun t => pyStrip (pyLower t))
    else searchTagsFromMapping category_lower rest

/-- Search tags for a requested category, falling back to the raw category
string itself when the mapping has no entry for it. -/
def computeSearchTags (category_lower : String) : List String :=
  let st := searchTagsFromMapping category_lower CATEGORY_MAPPING
  if st.isEmpty then [category_lower] else st

/-- Is the requested category one of the TV-class queries that trigger the
audio-exclusion and home-theater guards? -/
def isTVCategoryQuery (category_lower : String) : Bool :=
  category_lower == "tv" || category_lower == "televisions"

/-- Strictly-video tags used by the audio-only exclusion. -/
def TV_MODE_VIDEO_TAGS : List String :=
  ["tv", "televisions", "television", "projector", "video", "dvd", "blu-ray", "blu ray"]

/-- Strictly-audio tags used by the audio-only exclusion. -/
def TV_MODE_AUDIO_TAGS : List String :=
  ["speaker", "headphone", "microphone", "amplifier", "stereo", "portable audio"]

/-- Explicit video tags consulted by the home-theater substring guard. -/
def EXPLICIT_VIDEO_TAGS : List String :=
  ["tv", "televisions", "television", "projector", "video"]

/-- Does some product category carry an explicit video tag as a substring? -/
def hasExplicitVideoTag (product_categories : List String) : Bool :=
  product_categories.any (fun cat => EXPLICIT_VIDEO_TAGS.any (fun vt => substr vt (pyLower cat)))

/-- Audio-only detection for TV-class queries: the product has some strictly
audio tag and no strictly video tag. -/
def audioOnlyNoVideo (product_categories : List String) : Bool :=
  let has_video := product_categories.any
    (fun c => TV_MODE_VIDEO_TAGS.any (fun vt => substr vt (pyLower c)))
  let has_audio := product_categories.any
    (fun c => TV_MODE_AUDIO_TAGS.any (fun ag => substr ag (pyLower c)))
  has_audio && !has_video

/-- One search tag against one product category: exact match, forward
substring match (guarded against ambiguous `home theater` for TV queries),
or reverse containment for tags longer than three characters (same guard).
A guarded-out forward match falls through to the next product category, not
to the reverse rule, exactly as the `continue` in the source does. -/
def tagMatchesCat (category_lower tagC pcC : String) (product_categories : List String) : Bool :=
  if tagC == pcC then true
  else if substr tagC pcC then
    if isTVCategoryQuery category_lower && substr "home theater" pcC &&
        !hasExplicitVideoTag product_categories then false
    else true
  else if tagC.length > 3 && substr pcC tagC then
    if isTVCategoryQuery category_lower && substr "home theater" tagC then false
    else true
  else false

/-- The per-product match decision of `filter_products_by_category`:
products with no extractable category are skipped, TV-class queries exclude
audio-only products, and otherwise some search tag must match some product
category. -/
def productMatchesCategory (category_lower : String) (search_tags : List String) (p : Product) : Bool :=
  let cats := filterProductCategories p
  if cats.isEmpty then false
  else if isTVCategoryQuery category_lower && audioOnlyNoVideo cats then false
  else search_tags.any (fun tag =>
    let tagC := pyStrip (pyLower tag)
    cats.any (fun pc => tagMatchesCat category_lower tagC (pyStrip (pyLower pc)) cats))

/-- Embedding of `filter_products_by_category` (logging omitted). -/
def filter_products_by_category (products : List Product) (category : String) : List Product :=
  if products.isEmpty || category == "" then products
  else
    let category_lower := pyStrip (pyLower category)
    let search_tags := computeSearchTags category_lower
    products.filter (productMatchesCategory category_lower search_tags)

/-- Does a (lower-cased) suffix start with one of the units of the first size
pattern `(?:inch|pollici|"|in)(?:es)?`?  Matching `inch` implies matching the
prefix `in`, and the optional `es` does not affect the captured group, so the
test collapses to a prefix check for `in`, `pollici` or `"`. -/
def unit1Prefix (cs : List Char) : Bool :=
  "in".toList.isPrefixOf cs || "pollici".toList.isPrefixOf cs ||
    (match cs with
     | c :: _ => c == '"'
     | [] => false)

/-- First size pattern at a fixed position: a digit run, optional whitespace,
then a unit.  The regex engine never needs to backtrack the greedy `\d+` or
`\s*` here because no unit alternative begins with a digit or whitespace. -/
def pat1At (cs : List Char) : Option Nat :=
  let ds := cs.takeWhile isAsciiDigit
  if ds.isEmpty then none
  else
    let rest := (cs.dropWhile isAsciiDigit).dropWhile isPySpace
    if unit1Prefix rest then some (digitsToNat ds) else none

/-- Second size pattern at a fixed position: `(\d+)[\s-]*(?:inch|pollici|"|in)`. -/
def pat2At (cs : List Char) : Option Nat :=
  let ds := cs.takeWhile isAsciiDigit
  if ds.isEmpty then none
  else
    let rest := (cs.dropWhile isAsciiDigit).dropWhile (fun c => isPySpace c || c == '-')
    if unit1Prefix rest then some (digitsToNat ds) else none

/-- Third size pattern at a fixed position: `(\d+)\s*(?:inch|pollici)`. -/
def pat3At (cs : List Char) : Option Nat :=
  let ds := cs.takeWhile isAsciiDigit
  if ds.isEmpty then none
  else
    let rest := (cs.dropWhile isAsciiDigit).dropWhile isPySpace
    if "inch".toList.isPrefixOf rest || "pollici".toList.isPrefixOf rest then
      some (digitsToNat ds)
    else none

/-- Leftmost match of a positional pattern, as `re.search` scans positions
left to right. -/
def searchPat (patAt : List Char → Option Nat) : List Char → Option Nat
  | [] => none
  | c :: cs => (patAt (c :: cs)).orElse (fun _ => searchPat patAt cs)

/-- Embedding of the `extract_size_from_name` closure of
`rank_products_by_criteria`: try the three case-insensitive patterns in
order (case-insensitivity is modelled by lower-casing the input). -/
def extract_size_from_name (name : String) : Option Nat :=
  if name == "" then none
  else
    let cs := (pyLower name).toList
    (searchPat pat1At cs).orElse (fun _ =>
      (searchPat pat2At cs).orElse (fun _ => searchPat pat3At cs))

/-- PC-intent keywords of the cross-sell recommender. -/
def CROSS_SELL_PC_KEYWORDS : List String :=
  ["pc", "laptop", "notebook", "desktop", "computer", "ultrabook", "macbook", "gaming"]

/-- TV-intent keywords of the cross-sell recommender. -/
def CROSS_SELL_TV_KEYWORDS : List String :=
  ["tv", "televisore", "television", "smart tv", "oled", "qled"]

/-- Audio-intent keywords of the cross-sell recommender. -/
def CROSS_SELL_AUDIO_KEYWORDS : List String :=
  ["soundbar", "subwoofer", "home theater", "home-theater", "surround",
   "dolby", "sound system", "speaker"]

/-- LED/ambient-lighting keywords of the cross-sell recommender. -/
def CROSS_SELL_LED_KEYWORDS : List String :=
  ["led", "ambient", "strip", "lighting", "backlight", "back light"]

/-- Mount/stand keywords of the cross-sell recommender. -/
def CROSS_SELL_MOUNT_KEYWORDS : List String :=
  ["support", "staffa", "mount", "bracket", "stand"]

/-- Goal phrases recognised by the solution-bundle builder. -/
def SOLUTION_BUNDLE_GOAL_KEYWORDS : List String :=
  ["home theater", "home theatre", "home-theater", "home-theatre",
   "home cinema", "cinema"]

/-- Soundbar slot keywords of the solution-bundle builder. -/
def SOLUTION_BUNDLE_SOUNDBAR_KEYWORDS : List String := ["soundbar"]

/-- Subwoofer slot keywords of the solution-bundle builder. -/
def SOLUTION_BUNDLE_SUBWOOFER_KEYWORDS : List String := ["subwoofer"]

/-- Accessory exclusion keywords: the source list unioned (as a Python set)
with the mount and LED keyword lists.  The set's iteration order is
irrelevant, since the list is only consumed through `any`; the union is
written out with duplicates removed. -/
def BUNDLE_ACCESSORY_EXCLUDE_KEYWORDS : List String :=
  ["accessor", "supporto", "staff", "mount", "bracket", "stand", "base",
   "kit", "panno", "microfibra", "clean", "pulizia", "cavo", "hdmi",
   "telecomand", "remote", "led", "strip", "lighting", "backlight", "wall",
   "support", "staffa", "ambient", "back light"]

/-- Cross-sell tag constant. -/
def CROSS_SELL_CLEANING_TAG : String := "screen-cleaning"

/-- Cross-sell tag constant. -/
def CROSS_SELL_POPULAR_TAG : String := "popular"

/-- Cross-sell tag constant. -/
def CROSS_SELL_RECOMMENDED_TAG : String := "recommended"

/-- Cross-sell tag constant. -/
def CROSS_SELL_SOUNDBAR_TAG : String := "soundbar"

/-- Cross-sell tag constant. -/
def CROSS_SELL_SUBWOOFER_TAG : String := "subwoofer"

/-- Cross-sell tag constant. -/
def CROSS_SELL_LED_TAG : String := "led"

/-- Cross-sell tag constant. -/
def CROSS_SELL_MOUNT_TAG : String := "mount"

/-- Embedding of `_has_home_theater_intent`. -/
def _has_home_theater_intent (keywords : List String) : Bool :=
  if keywords.isEmpty then false
  else
    let normalized := _normalize_text
      (String.intercalate " " (keywords.filter (fun kw => kw ≠ "")))
    SOLUTION_BUNDLE_GOAL_KEYWORDS.any (fun goal => substr (_normalize_text goal) normalized)

/-- Embedding of `_is_accessory_product`. -/
def _is_accessory_product (product : Product) (accessory_keywords : List String) : Bool :=
  if accessory_keywords.isEmpty then false
  else
    let normalized_name := _normalize_text (product.name.getD "")
    let normalized_categories := _normalize_text
      (String.intercalate " " (_extract_product_categories product))
    let combined := pyStrip (normalized_name ++ " " ++ normalized_categories)
    accessory_keywords.any (fun kw => substr kw combined)

/-- The optional ranking-criteria bag.  A missing or falsy entry of the
Python dict is `none` (respectively `[]` for the keyword list). -/
structure Criteria where
  size_inches : Option ℚ := none
  target_price : Option ℚ := none
  max_price : Option ℚ := none
  min_price : Option ℚ := none
  keywords : List String := []
deriving DecidableEq

/-- Python truthiness of an optional numeric criterion: `None` and `0` are
both falsy. -/
def truthyQ : Option ℚ → Option ℚ
  | some x => if x = 0 then none else some x
  | none => none

/-- Step 1 of `calculate_relevance_score`: size match.  The truthiness tests
`if target_size:` and `if product_size:` make a zero target or a zero
extracted size skip the step. -/
def sizeScoreStep (criteria : Criteria) (product : Product) (score : ℚ) : ℚ :=
  match truthyQ criteria.size_inches with
  | none => score
  | some target_size =>
    match extract_size_from_name (product.name.getD "") with
    | none => score
    | some product_size =>
      if product_size == 0 then score
      else
        let size_diff := |(product_size : ℚ) - target_size|
        if size_diff = 0 then 0
        else if size_diff ≤ 5 then 10 + size_diff
        else 50 + size_diff

/-- Step 2 of `calculate_relevance_score`: target-price match. -/
def priceTargetStep (criteria : Criteria) (product : Product) (score : ℚ) : ℚ :=
  match truthyQ criteria.target_price with
  | none => score
  | some target_price =>
    let product_price := get_price product
    if product_price > 0 then
      let price_diff := |product_price - target_price|
      let price_diff_percent :=
        if target_price > 0 then price_diff / target_price * 100 else 100
      if score ≥ 1000 then
        if price_diff_percent ≤ 10 then 20
        else if price_diff_percent ≤ 25 then 30
        else 40 + price_diff_percent
      else
        if price_diff_percent ≤ 25 then score + 1 else score
    else score

/-- Step 3 of `calculate_relevance_score`: min/max price penalties. -/
def priceRangeStep (criteria : Criteria) (product : Product) (score : ℚ) : ℚ :=
  let product_price := get_price product
  let score1 :=
    match truthyQ criteria.max_price with
    | some max_price => if product_price > max_price then score + 100 else score
    | none => score
  match truthyQ criteria.min_price with
  | some min_price => if product_price < min_price then score1 + 50 else score1
  | none => score1

/-- Step 4 of `calculate_relevance_score`: keyword bonus. -/
def keywordStep (criteria : Criteria) (product : Product) (score : ℚ) : ℚ :=
  if criteria.keywords.isEmpty then score
  else
    let text := pyLower (product.name.getD "") ++ " " ++
      pyLower (product.descrizione_prodotto.getD "")
    let matched := (criteria.keywords.filter (fun kw => substr (pyLower kw) text)).length
    if matched > 0 then max 0 (score - (matched : ℚ) * 5) else score

/-- Step 5 of `calculate_relevance_score`: home-theater intent adjustments. -/
def homeTheaterStep (criteria : Criteria) (product : Product) (score : ℚ) : ℚ :=
  if _has_home_theater_intent criteria.keywords then
    let combined_text := _normalize_text
      ((product.name.getD "") ++ " " ++
        String.intercalate " " (_extract_product_categories product))
    let s1 := if _is_accessory_product product BUNDLE_ACCESSORY_EXCLUDE_KEYWORDS
      then score + 120 else score
    let s2 := if CROSS_SELL_TV_KEYWORDS.any (fun kw => substr kw combined_text)
      then max 0 (s1 - 40) else s1
    let s3 := if SOLUTION_BUNDLE_SUBWOOFER_KEYWORDS.any (fun kw => substr kw combined_text)
      then max 0 (s2 - 25) else s2
    let s4 := if SOLUTION_BUNDLE_SOUNDBAR_KEYWORDS.any (fun kw => substr kw combined_text)
      then max 0 (s3 - 20) else s3
    if CROSS_SELL_AUDIO_KEYWORDS.any (fun kw => substr kw combined_text)
      then max 0 (s4 - 10) else s4
  else score

/-- Embedding of the `calculate_relevance_score` closure: the five scoring
steps starting from the base score 1000, returning the stable sort key
`(score, -price, name)`. -/
def calculate_relevance_score (criteria : Criteria) (product : Product) : ℚ × ℚ × String :=
  let score := sizeScoreStep criteria product 1000
  let score := priceTargetStep criteria product score
  let score := priceRangeStep criteria product score
  let score := keywordStep criteria product score
  let score := homeTheaterStep criteria product score
  (score, -get_price product, product.name.getD "")

/-- Lexicographic comparison of sort keys, as Python compares the tuples
`(score, -price, name)`. -/
def rankKeyLE (a b : ℚ × ℚ × String) : Bool :=
  decide (a.1 < b.1) ||
    (decide (a.1 = b.1) &&
      (decide (a.2.1 < b.2.1) ||
        (decide (a.2.1 = b.2.1) && decide (a.2.2 ≤ b.2.2))))

/-- Embedding of `rank_products_by_criteria`: the empty-or-absent guard, then
a stable sort by the relevance key (Python `sorted` is stable; a stable sort
under a total preorder is unique, and is modelled by insertion sort). -/
def rank_products_by_criteria (products : List Product)
    (criteria : Option Criteria := none) : List Product :=
  if products.isEmpty then products
  else
    match criteria with
    | none => products
    | some c =>
      List.insertionSort (fun a b =>
        rankKeyLE (calculate_relevance_score c a) (calculate_relevance_score c b) = true)
        products

/-- A cart item of the cross-sell request (`CrossSellCartItemInput`):
`id` and `name` are required, the rest optional. -/
structure CrossSellCartItemInput where
  id : String
  name : String
  description : Option String := none
  short_description : Option String := none
  detail_summary : Option String := none
  tags : Option (List String) := none
  category : Option String := none
deriving DecidableEq

/-- A cross-sell catalog item: a loosely-typed mapping with SKU, name,
price, tags, compatible device classes and priority. -/
structure CrossSellItem where
  id : Option String := none
  sku : Option String := none
  name : Option String := none
  price : Option ℚ := none
  imageUrl : Option String := none
  tags : Option (List String) := none
  compatibleWith : Option (List String) := none
  priority : Option ℚ := none
deriving DecidableEq

/-- Embedding of `_collect_cart_text`: join the truthy text chunks of every
cart item with single spaces. -/
def _collect_cart_text (cart_items : List CrossSellCartItemInput) : String :=
  String.intercalate " "
    ((cart_items.flatMap (fun item =>
      [item.name, item.description.getD "", item.short_description.getD "",
       item.detail_summary.getD "", String.intercalate " " (item.tags.getD [])])).filter
      (fun chunk => chunk ≠ ""))

/-- Keyword hit against the tokens or the whole normalized text, as in
`keyword in tokens or keyword in normalized_text`. -/
def intentKeywordHit (tokens : List String) (normalized_text : String)
    (keywords : List String) : Bool :=
  keywords.any (fun kw => tokens.contains kw || substr kw normalized_text)

/-- Embedding of `_get_cart_category_intent`: device-class intent detection
from cart text and explicit category fields. -/
def _get_cart_category_intent (cart_items : List CrossSellCartItemInput) :
    List String × Bool :=
  if cart_items.isEmpty then ([], false)
  else
    let normalized_text := _normalize_text (_collect_cart_text cart_items)
    let tokens := (normalized_text.splitOn " ").filter (fun t => t ≠ "")
    let explicit_categories := cart_items.foldl (fun acc item =>
      match item.category with
      | none => acc
      | some cat =>
        if cat == "" then acc
        else
          let normalized_category := _normalize_text cat
          let acc := if ["pc", "laptop", "desktop"].any
              (fun kw => substr kw normalized_category) then acc ++ ["pc"] else acc
          if substr "tv" normalized_category || substr "televis" normalized_category
            then acc ++ ["tv"] else acc) []
    let has_pc := explicit_categories.contains "pc" ||
      intentKeywordHit tokens normalized_text CROSS_SELL_PC_KEYWORDS
    let has_tv := explicit_categories.contains "tv" ||
      intentKeywordHit tokens normalized_text CROSS_SELL_TV_KEYWORDS
    let has_audio := intentKeywordHit tokens normalized_text CROSS_SELL_AUDIO_KEYWORDS
    let has_led := intentKeywordHit tokens normalized_text CROSS_SELL_LED_KEYWORDS
    let categories :=
      (if has_pc then ["pc"] else []) ++ (if has_tv then ["tv"] else []) ++
      (if has_audio then ["audio"] else []) ++ (if has_led then ["led"] else [])
    (categories, has_pc || has_tv || has_audio || has_led)

/-- Embedding of `_get_cart_identifiers`: normalized ids and names of the
cart items (sets modelled as lists used through membership). -/
def _get_cart_identifiers (cart_items : List CrossSellCartItemInput) :
    List String × List String :=
  ((cart_items.filter (fun i => i.id ≠ "")).map (fun i => _normalize_text i.id),
   (cart_items.filter (fun i => i.name ≠ "")).map (fun i => _normalize_text i.name))

/-- Embedding of `_has_accessory_keyword`. -/
def _has_accessory_keyword (cart_items : List CrossSellCartItemInput)
    (keywords : List String) : Bool :=
  let normalized_text := _normalize_text (_collect_cart_text cart_items)
  keywords.any (fun kw => substr kw normalized_text)

/-- Embedding of `_sort_by_priority`: stable sort by priority, highest first
(Python `sorted(key=priority, reverse=True)` keeps ties in input order; a
stable sort under a total preorder is unique, and is modelled by insertion
sort). -/
def _sort_by_priority (items : List CrossSellItem) : List CrossSellItem :=
  List.insertionSort (fun a b => b.priority.getD 0 ≤ a.priority.getD 0) items

/-- Worker for `_dedupe_by_sku`, threading the set of seen SKUs. -/
def dedupeBySkuGo : List CrossSellItem → List String → List CrossSellItem
  | [], _ => []
  | item :: rest, seen =>
    let sku := item.sku.getD ""
    if sku == "" || seen.contains sku then dedupeBySkuGo rest seen
    else item :: dedupeBySkuGo rest (sku :: seen)

/-- Embedding of `_dedupe_by_sku`: drop items with missing/empty SKU and
keep the first item of each SKU. -/
def _dedupe_by_sku (items : List CrossSellItem) : List CrossSellItem :=
  dedupeBySkuGo items []

/-- State of the `push_suggestion` closure: the accumulated suggestions and
the set of SKUs already pushed. -/
structure PushState where
  suggestions : List CrossSellItem
  seen : List String
deriving DecidableEq

/-- Embedding of the `push_suggestion` closure. -/
def pushSuggestion (st : PushState) (item : CrossSellItem) : PushState :=
  let sku := item.sku.getD ""
  if sku == "" || st.seen.contains sku then st
  else { suggestions := st.suggestions ++ [item], seen := sku :: st.seen }

/-- Push a list of items in order. -/
def pushAll (st : PushState) (items : List CrossSellItem) : PushState :=
  items.foldl pushSuggestion st

/-- Eligibility filter of `_get_cross_sell_suggestions`: exclude candidates
whose normalized SKU or id is a cart identifier or whose normalized name is
a cart name, then de-duplicate by SKU. -/
def crossSellEligible (cart_items : List CrossSellCartItemInput)
    (catalog : List CrossSellItem) : List CrossSellItem :=
  let ids_names := _get_cart_identifiers cart_items
  _dedupe_by_sku (catalog.filter (fun item =>
    !(ids_names.1.contains (_normalize_text (item.sku.getD ""))) &&
    !(ids_names.1.contains (_normalize_text (item.id.getD ""))) &&
    !(ids_names.2.contains (_normalize_text (item.name.getD "")))))

/-- Fallback score of the final scored pass of `_get_cross_sell_suggestions`:
static priority (truncated to an integer) plus the tag/compatibility
bonuses. -/
def crossSellFallbackScore (categories : List String) (has_screen_device : Bool)
    (item : CrossSellItem) : ℤ :=
  let tags := item.tags.getD []
  let compat := item.compatibleWith.getD []
  pyIntTruncQ (item.priority.getD 0) +
    (if has_screen_device && tags.contains CROSS_SELL_CLEANING_TAG then 15 else 0) +
    (if tags.contains CROSS_SELL_SOUNDBAR_TAG then 20 else 0) +
    (if tags.contains CROSS_SELL_SUBWOOFER_TAG then 18 else 0) +
    (if tags.contains CROSS_SELL_LED_TAG then 6 else 0) +
    (if categories.contains "pc" && compat.contains "pc" then 10 else 0) +
    (if categories.contains "tv" && compat.contains "tv" then 10 else 0) +
    (if tags.contains CROSS_SELL_POPULAR_TAG then 4 else 0)

/-- The directed-pass idiom of `_get_cross_sell_suggestions`:
`if cond: for item in _sort_by_priority(candidates)[:n]: push_suggestion(item)`. -/
def pushTopPriorityIf (cond : Bool) (st : PushState) (n : Nat)
    (candidates : List CrossSellItem) : PushState :=
  if cond then pushAll st ((_sort_by_priority candidates).take n) else st

/-- The directed suggestion passes and the fallback scored pass of
`_get_cross_sell_suggestions`, applied to the eligible catalog.  Each
directed pass is an application of `pushTopPriorityIf`; the `needs_*` flags
computed inside a skipped `if` block in the source are hoisted into the
conjunction guarding the corresponding push, which is sound because they are
pure. -/
def crossSellPushes (cart_items : List CrossSellCartItemInput)
    (eligible : List CrossSellItem) : PushState :=
  let intent := _get_cart_category_intent cart_items
  let categories := intent.1
  let has_screen_device := intent.2
  let normalized_cart_text := _normalize_text (_collect_cart_text cart_items)
  let pc_candidates := eligible.filter
    (fun item => (item.compatibleWith.getD []).contains "pc")
  let tv_candidates := eligible.filter
    (fun item => (item.compatibleWith.getD []).contains "tv")
  let st : PushState := ⟨[], []⟩
  let st := pushTopPriorityIf (has_screen_device && !categories.isEmpty) st 2
    (eligible.filter (fun item =>
      (item.tags.getD []).contains CROSS_SELL_CLEANING_TAG &&
      (item.compatibleWith.getD []).any (fun c => categories.contains c)))
  let st := pushTopPriorityIf
    (categories.contains "pc" && !(_has_accessory_keyword cart_items ["usb-c", "usb c"]))
    st 1 (pc_candidates.filter (fun item => (item.tags.getD []).contains "usb-c"))
  let st := pushTopPriorityIf
    (categories.contains "pc" && !(_has_accessory_keyword cart_items ["charger", "caricatore"]))
    st 1 (pc_candidates.filter (fun item => (item.tags.getD []).contains "charger"))
  let st := pushTopPriorityIf
    (categories.contains "tv" && !(_has_accessory_keyword cart_items ["soundbar"]))
    st 1 (tv_candidates.filter
      (fun item => (item.tags.getD []).contains CROSS_SELL_SOUNDBAR_TAG))
  let st := pushTopPriorityIf
    (categories.contains "tv" && !(_has_accessory_keyword cart_items ["subwoofer"]))
    st 1 (tv_candidates.filter
      (fun item => (item.tags.getD []).contains CROSS_SELL_SUBWOOFER_TAG))
  let st := pushTopPriorityIf
    (categories.contains "tv" && !(substr "hdmi" normalized_cart_text))
    st 1 (tv_candidates.filter (fun item => (item.tags.getD []).contains "hdmi"))
  let st := pushTopPriorityIf (categories.contains "tv") st 1
    (tv_candidates.filter (fun item => (item.tags.getD []).contains "remote"))
  let st := pushTopPriorityIf
    (categories.contains "tv" && !(_has_accessory_keyword cart_items
      ["support", "staffa", "mount", "bracket", "stand"]))
    st 1 (tv_candidates.filter (fun item => (item.tags.getD []).any
      (fun tag => tag == "tv-mount" || tag == "stand" || tag == CROSS_SELL_MOUNT_TAG)))
  let st := pushTopPriorityIf
    (categories.contains "tv" && !(_has_accessory_keyword cart_items
      ["led", "lighting", "ambient", "backlight", "back light"]))
    st 1 (tv_candidates.filter
      (fun item => (item.tags.getD []).contains CROSS_SELL_LED_TAG))
  let scored := (eligible.filter (fun item =>
      let sku := item.sku.getD ""
      !(sku == "") && !(st.seen.contains sku) &&
      (categories.isEmpty ||
        (item.compatibleWith.getD []).any (fun c => categories.contains c)))).map
    (fun item => (item, crossSellFallbackScore categories has_screen_device item))
  let sortedScored := List.insertionSort (fun a b => b.2 ≤ a.2) scored
  pushAll st (sortedScored.map Prod.fst)

/-- Embedding of `_get_cross_sell_suggestions`. -/
def _get_cross_sell_suggestions (cart_items : List CrossSellCartItemInput)
    (catalog : List CrossSellItem) (max_results : Nat) : List CrossSellItem :=
  if cart_items.isEmpty || catalog.isEmpty then []
  else
    (crossSellPushes cart_items (crossSellEligible cart_items catalog)).suggestions.take
      max_results

/-- Embedding of `_extract_image_url`: first element of a non-empty image
list, a plain string as itself, otherwise the empty string.  The list-or-
string shape of `imageURLs` reuses `CatVal`. -/
def _extract_image_url (product : Product) : String :=
  match product.imageURLs with
  | some (.list (u :: _)) => u
  | some (.list []) => ""
  | some (.str s) => s
  | none => ""

/-- Embedding of `_map_product_to_cross_sell_item`: derive tags, compatible
device classes and a static priority from the product's name and
categories. -/
def _map_product_to_cross_sell_item (product : Product) : CrossSellItem :=
  let sku := product.id.getD ""
  let name := product.name.getD ""
  let price := _extract_price_from_product product
  let primary_categories := _extract_product_categories product
  let normalized_categories := _normalize_text (String.intercalate " " primary_categories)
  let normalized_name := _normalize_text name
  let normalized_text := _normalize_text (normalized_name ++ " " ++ normalized_categories)
  let tags : List String :=
    (if substr "panno" normalized_categories || substr "clean" normalized_categories
      then [CROSS_SELL_CLEANING_TAG] else []) ++
    (if substr "cavi" normalized_categories || substr "hdmi" normalized_categories
      then [CROSS_SELL_POPULAR_TAG] else []) ++
    (if substr "telecomand" normalized_categories || substr "caric" normalized_categories
      then [CROSS_SELL_RECOMMENDED_TAG] else []) ++
    (if substr "soundbar" normalized_text then [CROSS_SELL_SOUNDBAR_TAG] else []) ++
    (if substr "subwoofer" normalized_text then [CROSS_SELL_SUBWOOFER_TAG] else []) ++
    (if CROSS_SELL_LED_KEYWORDS.any (fun kw => substr kw normalized_text)
      then [CROSS_SELL_LED_TAG] else []) ++
    (if CROSS_SELL_MOUNT_KEYWORDS.any (fun kw => substr kw normalized_text)
      then [CROSS_SELL_MOUNT_TAG] else [])
  let compatible_with : List String :=
    let base :=
      (if substr "tv" normalized_categories || substr "televis" normalized_categories
        then ["tv"] else []) ++
      (if ["computer", "laptop", "desktop", "pc"].any
          (fun token => substr token normalized_categories) then ["pc"] else [])
    if [CROSS_SELL_SOUNDBAR_TAG, CROSS_SELL_SUBWOOFER_TAG, CROSS_SELL_LED_TAG,
        CROSS_SELL_MOUNT_TAG].any (fun tag => tags.contains tag) &&
        !(base.contains "tv")
      then base ++ ["tv"] else base
  let priority : ℚ :=
    if tags.contains CROSS_SELL_CLEANING_TAG then 90
    else if tags.contains CROSS_SELL_SOUNDBAR_TAG then 88
    else if tags.contains CROSS_SELL_SUBWOOFER_TAG then 86
    else if tags.contains CROSS_SELL_MOUNT_TAG then 82
    else if tags.contains CROSS_SELL_LED_TAG then 80
    else if substr "cavi" normalized_categories then 82
    else if substr "telecomand" normalized_categories then 78
    else if substr "caric" normalized_categories then 76
    else 60
  { id := some sku, sku := some sku, name := some name, price := some price,
    imageUrl := some (_extract_image_url product), tags := some tags,
    compatibleWith := some compatible_with, priority := some priority }

/-- Does a product register the given normalized key in the lookup dict of
`_resolve_cart_products` (under its id or its name)? -/
def resolveRegisters (key : String) (p : Product) : Bool :=
  (match p.id with
   | some pid => pid ≠ "" && _normalize_text pid == key
   | none => false) ||
  (match p.name with
   | some nm => nm ≠ "" && _normalize_text nm == key
   | none => false)

/-- Lookup in the id/name dict of `_resolve_cart_products`; later insertions
overwrite earlier ones, so the last registering product wins. -/
def resolveLookup (products : List Product) (key : String) : Option Product :=
  (products.filter (resolveRegisters key)).getLast?

/-- Embedding of `_resolve_cart_products`: match each cart item to a catalog
product by normalized id first, then normalized name. -/
def _resolve_cart_products (cart_items : List CrossSellCartItemInput)
    (products : List Product) : List Product :=
  if cart_items.isEmpty || products.isEmpty then []
  else
    cart_items.filterMap (fun item =>
      match resolveLookup products (_normalize_text item.id) with
      | some p => some p
      | none => resolveLookup products (_normalize_text item.name))

/-- Embedding of `_detect_cart_intent_from_products`. -/
def _detect_cart_intent_from_products (cart_products : List Product) :
    List String × Bool :=
  if cart_products.isEmpty then ([], false)
  else
    let normalized_categories := _normalize_text (String.intercalate " "
      (cart_products.map (fun p => String.intercalate " " (_extract_product_categories p))))
    let normalized_names := _normalize_text (String.intercalate " "
      (cart_products.map (fun p => p.name.getD "")))
    let has_tv := ["tv", "televis"].any (fun kw => substr kw normalized_categories)
    let has_pc := ["laptop", "computer", "desktop", "notebook", "pc"].any
      (fun kw => substr kw normalized_categories)
    let has_audio := CROSS_SELL_AUDIO_KEYWORDS.any (fun kw => substr kw normalized_names)
    let has_led := CROSS_SELL_LED_KEYWORDS.any (fun kw => substr kw normalized_names)
    let categories :=
      (if has_pc then ["pc"] else []) ++ (if has_tv then ["tv"] else []) ++
      (if has_audio then ["audio"] else []) ++ (if has_led then ["led"] else [])
    (categories, has_pc || has_tv || has_audio || has_led)

/-- The TV accessory keywords local to `_get_cross_sell_suggestions_from_db`. -/
def DB_TV_ACCESSORY_KEYWORDS : List String :=
  ["cavi per tv", "telecomandi per tv", "panno per tv", "staff", "support"]

/-- The PC accessory keywords local to `_get_cross_sell_suggestions_from_db`. -/
def DB_PC_ACCESSORY_KEYWORDS : List String :=
  ["cavi per computer", "panno per computer", "caric", "alimentatore",
   "adattatore", "hub", "accessori"]

/-- Embedding of `_get_cross_sell_suggestions_from_db`: derive a cross-sell
catalog from the live product set, run the shared suggestion algorithm, and
cap the result. -/
def _get_cross_sell_suggestions_from_db (cart_items : List CrossSellCartItemInput)
    (products : List Product) (max_results : Nat) : List CrossSellItem :=
  if cart_items.isEmpty || products.isEmpty then []
  else
    let cart_products := _resolve_cart_products cart_items products
    let intent := _detect_cart_intent_from_products cart_products
    let categories := intent.1
    let has_screen_device := intent.2
    let accessory_products := products.filter (fun product =>
      let normalized_categories := _normalize_text
        (String.intercalate " " (_extract_product_categories product))
      let normalized_name := _normalize_text (product.name.getD "")
      let normalized_text := _normalize_text (normalized_name ++ " " ++ normalized_categories)
      if categories.contains "tv" &&
          DB_TV_ACCESSORY_KEYWORDS.any (fun kw => substr kw normalized_text) then true
      else if categories.contains "pc" &&
          DB_PC_ACCESSORY_KEYWORDS.any (fun kw => substr kw normalized_text) then true
      else if categories.contains "tv" &&
          (CROSS_SELL_AUDIO_KEYWORDS ++ CROSS_SELL_LED_KEYWORDS ++
            CROSS_SELL_MOUNT_KEYWORDS).any (fun kw => substr kw normalized_text) then true
      else if categories.contains "audio" &&
          (CROSS_SELL_AUDIO_KEYWORDS ++ CROSS_SELL_MOUNT_KEYWORDS).any
            (fun kw => substr kw normalized_text) then true
      else false)
    let catalog := (accessory_products.map _map_product_to_cross_sell_item).filter
      (fun item => item.price.getD 0 > 0 && item.name.getD "" ≠ "")
    let suggestions := _get_cross_sell_suggestions cart_items catalog max_results
    let suggestions :=
      if has_screen_device then suggestions.filter (fun item => item.sku.getD "" ≠ "")
      else suggestions
    suggestions.take max_results

/-- Embedding of `_filter_products_by_name_keywords`. -/
def _filter_products_by_name_keywords (products : List Product)
    (keywords : List String) : List Product :=
  if products.isEmpty || keywords.isEmpty then []
  else
    let normalized_keywords := (keywords.filter (fun kw => kw ≠ "")).map
      (fun kw => pyStrip (pyLower kw))
    products.filter (fun product =>
      let name := _normalize_text (product.name.getD "")
      name ≠ "" && normalized_keywords.any (fun kw => substr kw name))

/-- Embedding of `_filter_products_for_bundle`: keyword-filter by name, then
drop accessory products, falling back to the unfiltered candidates when the
accessory filter removes everything. -/
def _filter_products_for_bundle (products : List Product)
    (include_keywords : List String)
    (accessory_exclusions : Option (List String)) : List Product :=
  let candidates := _filter_products_by_name_keywords products include_keywords
  match accessory_exclusions with
  | none => candidates
  | some excl =>
    if candidates.isEmpty then candidates
    else
      let exclusions := (excl.filter (fun kw => kw ≠ "")).map
        (fun kw => pyStrip (pyLower kw))
      let filtered := candidates.filter
        (fun product => !(_is_accessory_product product exclusions))
      if filtered.isEmpty then candidates else filtered

/-- Sort key of `_sort_products_by_price`: the extracted price when positive,
`float("inf")` (modelled as `⊤` in `WithTop ℚ`) otherwise. -/
def priceSortKey (price : ℚ) : WithTop ℚ :=
  if price > 0 then (price : WithTop ℚ) else ⊤

/-- Embedding of `_sort_products_by_price`: stable ascending sort by
`priceSortKey` (non-positive prices last), reversed wholesale for the
`"high"` preference.  A falsy preference defaults to `"low"`. -/
def _sort_products_by_price (products : List Product) (preference : String) :
    List Product :=
  if products.isEmpty then []
  else
    let pref := pyLower (if preference == "" then "low" else preference)
    let scored := products.map (fun p => (_extract_price_from_product p, p))
    let sorted := List.insertionSort (fun a b => priceSortKey a.1 ≤ priceSortKey b.1) scored
    let sorted := if pref == "high" then sorted.reverse else sorted
    sorted.map Prod.snd

/-- Embedding of `_select_product_by_price`: first positive-priced product of
the price-sorted list, else its head. -/
def _select_product_by_price (products : List Product) (preference : String) :
    Option Product :=
  let sorted_products := _sort_products_by_price products preference
  match sorted_products.find? (fun p => _extract_price_from_product p > 0) with
  | some p => some p
  | none => sorted_products.head?

/-- Selection loop of `_select_products_by_price`: walk the sorted list,
skip products whose non-empty id was already seen, record new ids, stop at
the limit.  The Python function mutates the passed `seen_ids` set; the
model returns the updated set alongside the selection. -/
def selectByPriceLoop (limit : Nat) :
    List Product → List String → List Product → List Product × List String
  | [], seen, selected => (selected, seen)
  | product :: rest, seen, selected =>
    let product_id := product.id.getD ""
    if product_id ≠ "" && seen.contains product_id then
      selectByPriceLoop limit rest seen selected
    else
      let seen := if product_id ≠ "" then product_id :: seen else seen
      let selected := selected ++ [product]
      if limit ≤ selected.length then (selected, seen)
      else selectByPriceLoop limit rest seen selected

/-- Embedding of `_select_products_by_price` (with the `seen_ids` mutation
made explicit in the result). -/
def _select_products_by_price (products : List Product) (preference : String)
    (limit : Nat) (seen_ids : List String) : List Product × List String :=
  if products.isEmpty || limit == 0 then ([], seen_ids)
  else selectByPriceLoop limit (_sort_products_by_price products preference) seen_ids []

/-- The fixed slot table of `_build_solution_bundle_catalog`:
keywords, label, accessory-exclusion flag and per-slot limit. -/
def SOLUTION_BUNDLE_SLOTS : List (List String × String × Bool × Nat) :=
  [(CROSS_SELL_TV_KEYWORDS, "tv", true, 2),
   (SOLUTION_BUNDLE_SOUNDBAR_KEYWORDS, "soundbar", true, 2),
   (SOLUTION_BUNDLE_SUBWOOFER_KEYWORDS, "subwoofer", true, 1),
   (CROSS_SELL_LED_KEYWORDS, "led", true, 1)]

/-- Embedding of `_build_solution_bundle_catalog`: fill each slot in order,
threading the seen-id set across slots. -/
def _build_solution_bundle_catalog (products : List Product)
    (price_preference : String) : List Product :=
  if products.isEmpty then []
  else
    (SOLUTION_BUNDLE_SLOTS.foldl (fun (acc : List Product × List String) slot =>
      let candidates := _filter_products_for_bundle products slot.1
        (if slot.2.2.1 then some BUNDLE_ACCESSORY_EXCLUDE_KEYWORDS else none)
      let chosen := _select_products_by_price candidates price_preference slot.2.2.2 acc.2
      (acc.1 ++ chosen.1, chosen.2)) ([], [])).1

/-- Embedding of the price-preference resolution of the
`solution_bundle_recommendations` handler: lower-case and strip, coerce
`"medium"` to `"low"`, and reject anything other than `"low"`/`"high"`. -/
def resolve_price_preference (price_preference : String) : Option String :=
  let p := pyStrip (pyLower price_preference)
  let p := if p == "medium" then "low" else p
  if p == "low" || p == "high" then some p else none

/-- Embedding of the goal check of the `solution_bundle_recommendations`
handler: the normalized goal must contain one of the goal keywords. -/
def solution_bundle_goal_supported (goal : String) : Bool :=
  let normalized_goal := _normalize_text goal
  SOLUTION_BUNDLE_GOAL_KEYWORDS.any (fun kw => substr kw normalized_goal)

/-- Currencies with no minor unit (`ZERO_DECIMAL_CURRENCIES`). -/
def ZERO_DECIMAL_CURRENCIES : List String :=
  ["bif", "clp", "djf", "gnf", "jpy", "kmf", "krw", "mga", "pyg", "rwf",
   "ugx", "vnd", "vuv", "xaf", "xof", "xpf"]

/-- Currencies with three-decimal minor units (`THREE_DECIMAL_CURRENCIES`). -/
def THREE_DECIMAL_CURRENCIES : List String :=
  ["bhd", "jod", "kwd", "omr", "tnd"]

/-- Embedding of `_currency_exponent`. -/
def _currency_exponent (currency : String) : Nat :=
  let currency_lower := pyLower currency
  if ZERO_DECIMAL_CURRENCIES.contains currency_lower then 0
  else if THREE_DECIMAL_CURRENCIES.contains currency_lower then 3
  else 2

/-- Embedding of `_to_minor_amount`: quantize the (exact decimal image of
the) major amount to the currency exponent with `ROUND_HALF_UP`, then scale
to an integer number of minor units. -/
def _to_minor_amount (amount_major : ℚ) (currency : String) : ℤ :=
  let exponent := _currency_exponent currency
  roundHalfUpQ (amount_major * (10 : ℚ) ^ exponent)

/-- A checkout cart line (`CheckoutCartItemInput`). -/
structure CheckoutCartItemInput where
  name : String
  quantity : Nat
  unit_amount_major : ℚ
  description : Option String := none
deriving DecidableEq

/-- Checkout totals (`CheckoutCartTotals`). -/
structure CheckoutCartTotals where
  subtotal_minor : ℤ
  discount_minor : ℤ
  tax_minor : ℤ
  shipping_minor : ℤ
  grand_total_minor : ℤ
  currency : String
deriving DecidableEq

/-- The subtotal loop of `_compute_checkout_totals`: raises on the first
item whose unit amount converts to a non-positive minor amount. -/
def computeCheckoutSubtotal (items : List CheckoutCartItemInput)
    (currency : String) : Except String ℤ :=
  match items with
  | [] => .ok 0
  | item :: rest =>
    let unit_amount := _to_minor_amount item.unit_amount_major currency
    if unit_amount ≤ 0 then
      .error ("Invalid unit_amount for item \x27" ++ item.name ++ "\x27.")
    else
      match computeCheckoutSubtotal rest currency with
      | .ok s => .ok (unit_amount * (item.quantity : ℤ) + s)
      | .error e => .error e

/-- Embedding of `_compute_checkout_totals` (`raise ValueError` is the
`Except.error` branch; the float literal `0.10` is modelled as the rational
`1/10`). -/
def _compute_checkout_totals (items : List CheckoutCartItemInput)
    (currency : String) (promo_code : Option String) :
    Except String CheckoutCartTotals :=
  match computeCheckoutSubtotal items currency with
  | .error e => .error e
  | .ok subtotal =>
    let discount : ℤ :=
      match promo_code with
      | some p =>
        if p ≠ "" && pyUpper p == "WELCOME10" then
          pyIntTruncQ ((subtotal : ℚ) * (1 / 10))
        else 0
      | none => 0
    let taxable_base := max 0 (subtotal - discount)
    let tax : ℤ := 0
    let shipping : ℤ :=
      if pyUpper currency == "EUR" && decide ((subtotal : ℚ) / 100 < 50) then 500 else 0
    let grand := max 0 (taxable_base + shipping)
    .ok { subtotal_minor := subtotal, discount_minor := discount,
          tax_minor := tax, shipping_minor := shipping,
          grand_total_minor := grand, currency := pyUpper currency }

/-- Spec-side reading of the discount condition: the promo code equals
`WELCOME10` case-insensitively (upper-casing both sides; the literal is
already upper case). -/
def promoIsWelcome10 (promo_code : Option String) : Bool :=
  match promo_code with
  | some p => pyUpper p == "WELCOME10"
  | none => false

/-- A product carrying only a display name. -/
def namedProduct (name : String) : Product := { name := some name }

/-- A criteria bag carrying only a target size. -/
def sizeCriteria (size : ℚ) : Criteria := { size_inches := some size }

/-- Example cart: one item whose identifier is `ABC` and whose name is
`Monitor`. -/
def crossSellCartCE : List CrossSellCartItemInput := [{ id := "ABC", name := "Monitor" }]

/-- Example catalog item whose name normalizes to `abc`, the normalized
identifier of the cart item of `crossSellCartCE`. -/
def crossSellItemCE : CrossSellItem :=
  { id := some "x1", sku := some "X1", name := some "abc", price := some 10,
    priority := some 50 }

/-- Example catalog row: a zero-priced TV. -/
def zeroPricedTV : Product :=
  { id := some "p1", name := some "Smart TV", price := some (.num 0) }

/-- Example catalog row: a TV priced 100. -/
def pricedTV100 : Product :=
  { id := some "p2", name := some "TV B", price := some (.num 100) }

/-- Example catalog row without any category information. -/
def noCategoryProduct : Product := { id := some "nc", name := some "Mystery Item" }

/-- Example catalog row with TV category tags. -/
def tvTaggedProduct : Product :=
  { id := some "tvp", name := some "TV X", categories := some (.str "tv, flat panel") }

/-!
Theorems.  Shared helper lemmas come first; each claim of the specification
is then settled by one theorem (with a witness or counterexample where
required).
-/

theorem rankKeyLE_total (a b : ℚ × ℚ × String) :
    rankKeyLE a b || rankKeyLE b a := by
  simp only [rankKeyLE, Bool.or_eq_true, Bool.and_eq_true, decide_eq_true_eq]
  rcases lt_trichotomy a.1 b.1 with h | h | h
  · exact Or.inl (Or.inl h)
  · rcases lt_trichotomy a.2.1 b.2.1 with h2 | h2 | h2
    · exact Or.inl (Or.inr ⟨h, Or.inl h2⟩)
    · rcases le_total a.2.2 b.2.2 with h3 | h3
      · exact Or.inl (Or.inr ⟨h, Or.inr ⟨h2, h3⟩⟩)
      · exact Or.inr (Or.inr ⟨h.symm, Or.inr ⟨h2.symm, h3⟩⟩)
    · exact Or.inr (Or.inr ⟨h.symm, Or.inl h2⟩)
  · exact Or.inr (Or.inl h)

theorem rankKeyLE_trans (a b c : ℚ × ℚ × String) :
    rankKeyLE a b → rankKeyLE b c → rankKeyLE a c := by
  simp only [rankKeyLE, Bool.or_eq_true, Bool.and_eq_true, decide_eq_true_eq]
  rintro (hab | ⟨hab, hab2⟩) (hbc | ⟨hbc, hbc2⟩)
  · exact Or.inl (hab.trans hbc)
  · exact Or.inl (hbc ▸ hab)
  · exact Or.inl (hab ▸ hbc)
  · refine Or.inr ⟨hab.trans hbc, ?_⟩
    rcases hab2 with hab2 | ⟨hab2, hab3⟩ <;> rcases hbc2 with hbc2 | ⟨hbc2, hbc3⟩
    · exact Or.inl (hab2.trans hbc2)
    · exact Or.inl (hbc2 ▸ hab2)
    · exact Or.inl (hab2 ▸ hbc2)
    · exact Or.inr ⟨hab2.trans hbc2, hab3.trans hbc3⟩

theorem rankKeyLE_of_eq {a b : ℚ × ℚ × String} (h : a = b) : rankKeyLE a b := by
  subst h
  simp [rankKeyLE]

/-- C3: ranking with an absent (or empty) criteria bag returns the input
list unchanged, for every product list. -/
theorem rank_empty_criteria_identity (products : List Product) :
    rank_products_by_criteria products none = products := by
  simp [rank_products_by_criteria]

theorem filter_by_category_eq_filter (products : List Product) {category : String}
    (hc : category ≠ "") :
    filter_products_by_category products category =
      products.filter (fun p =>
        productMatchesCategory (pyStrip (pyLower category))
          (computeSearchTags (pyStrip (pyLower category))) p) := by
  have hcb : (category == "") = false := beq_eq_false_iff_ne.mpr hc
  cases products with
  | nil => simp [filter_products_by_category]
  | cons a l => simp [filter_products_by_category, hcb]

/-- C4: filtering by the same category string twice equals filtering once,
for every product list and every category string. -/
theorem filter_by_category_idempotent (products : List Product) (category : String) :
    filter_products_by_category (filter_products_by_category products category)
      category = filter_products_by_category products category := by
  by_cases hc : category = ""
  · subst hc
    simp [filter_products_by_category]
  · rw [filter_by_category_eq_filter products hc, filter_by_category_eq_filter _ hc]
    exact List.filter_eq_self.mpr (fun x hx => List.of_mem_filter hx)

/-- C8: half-up rounding of the checkout minor-amount conversion at the two
boundary examples: `10.005` euro gives `1001` cents and `100` yen (a
zero-decimal currency) gives `100`. -/
theorem to_minor_amount_examples :
    _to_minor_amount (10005 / 1000 : ℚ) "eur" = 1001 ∧
    _to_minor_amount 100 "jpy" = 100 := by
  constructor <;> with_unfolding_all decide

/-- C1 counterexample: the claim quantifies over every extractable size and
every criteria bag containing a target size, but the source guards both with
Python truthiness.  A product named `Screen 0 inch` has extractable size `0`,
yet with target size `45` its score stays at the base `1000` instead of the
claimed `50 + 45`; symmetrically a target size `0` is treated as absent, so
`TV 45 inch` keeps score `1000` instead of `50 + 45`. -/
theorem size_component_zero_counterexample :
    (extract_size_from_name "Screen 0 inch" = some 0 ∧
      (calculate_relevance_score (sizeCriteria 45) (namedProduct "Screen 0 inch")).1 = 1000 ∧
      (1000 : ℚ) ≠ 50 + |(0 : ℚ) - 45|) ∧
    (extract_size_from_name "TV 45 inch" = some 45 ∧
      sizeScoreStep (sizeCriteria 0) (namedProduct "TV 45 inch") 1000 = 1000 ∧
      (1000 : ℚ) ≠ 50 + |(45 : ℚ) - 0|) := by
  refine ⟨⟨?_, ?_, ?_⟩, ?_, ?_, ?_⟩ <;> with_unfolding_all decide

/-- C1 (amended): for every product whose name yields a nonzero extractable
size and every criteria bag containing a nonzero target size, the size
component of the relevance score is determined by the absolute size
difference (difference 0 scores 0, difference at most 5 scores 10 plus the
difference, larger differences score 50 plus the difference); in particular,
with only a size criterion, a product named `TV 45 inch` scores 0 for target
45, 15 for target 50 and 65 for target 60. -/
theorem size_component_formula (criteria : Criteria) (p : Product) (n : Nat) (t : ℚ)
    (hsize : criteria.size_inches = some t) (ht : t ≠ 0)
    (hext : extract_size_from_name (p.name.getD "") = some n) (hn : n ≠ 0) :
    sizeScoreStep criteria p 1000 =
      (if |(n : ℚ) - t| = 0 then 0
       else if |(n : ℚ) - t| ≤ 5 then 10 + |(n : ℚ) - t|
       else 50 + |(n : ℚ) - t|) ∧
    (calculate_relevance_score (sizeCriteria 45) (namedProduct "TV 45 inch")).1 = 0 ∧
    (calculate_relevance_score (sizeCriteria 50) (namedProduct "TV 45 inch")).1 = 15 ∧
    (calculate_relevance_score (sizeCriteria 60) (namedProduct "TV 45 inch")).1 = 65 := by
  refine ⟨?_, by with_unfolding_all decide, by with_unfolding_all decide,
    by with_unfolding_all decide⟩
  have hnb : (n == 0) = false := beq_eq_false_iff_ne.mpr hn
  simp only [sizeScoreStep, hsize, truthyQ, ht, if_neg ht, hext, hnb, Bool.false_eq_true,
    if_false]

/-- Witness for the amended C1 theorem at the concrete product
`TV 45 inch` with target size 50. -/
theorem size_component_formula_witness :
    sizeScoreStep (sizeCriteria 50) (namedProduct "TV 45 inch") 1000 = 15 := by
  have h := (size_component_formula (sizeCriteria 50) (namedProduct "TV 45 inch") 45 50
    rfl (by norm_num) (by decide) (by decide)).1
  rw [h]
  norm_num

theorem calc_score_price (c : Criteria) (p : Product) :
    (calculate_relevance_score c p).2.1 = -get_price p := rfl

theorem rankKeyLE_claim_rel {c : Criteria} {a b : Product}
    (h : rankKeyLE (calculate_relevance_score c a) (calculate_relevance_score c b) = true) :
    (calculate_relevance_score c a).1 < (calculate_relevance_score c b).1 ∨
    ((calculate_relevance_score c a).1 = (calculate_relevance_score c b).1 ∧
      get_price a > get_price b) ∨
    ((calculate_relevance_score c a).1 = (calculate_relevance_score c b).1 ∧
      get_price a = get_price b ∧
      (calculate_relevance_score c a).2.2 ≤ (calculate_relevance_score c b).2.2) := by
  simp only [rankKeyLE, Bool.or_eq_true, Bool.and_eq_true, decide_eq_true_eq] at h
  rcases h with h | ⟨h1, h2 | ⟨h2, h3⟩⟩
  · exact Or.inl h
  · rw [calc_score_price, calc_score_price] at h2
    exact Or.inr (Or.inl ⟨h1, neg_lt_neg_iff.mp h2⟩)
  · rw [calc_score_price, calc_score_price] at h2
    exact Or.inr (Or.inr ⟨h1, neg_inj.mp h2, h3⟩)

/-- C2: for every product list and non-empty criteria bag, ranking returns a
permutation of the input that is ordered ascending by relevance score, with
equal scores broken by higher extracted price first, then by lexicographic
name; and the sort is stable: the products with any fixed sort key appear in
their input order. -/
theorem rank_orders_by_score_price_name (products : List Product) (c : Criteria) :
    (rank_products_by_criteria products (some c)).Perm products ∧
    (rank_products_by_criteria products (some c)).Pairwise (fun a b =>
      (calculate_relevance_score c a).1 < (calculate_relevance_score c b).1 ∨
      ((calculate_relevance_score c a).1 = (calculate_relevance_score c b).1 ∧
        get_price a > get_price b) ∨
      ((calculate_relevance_score c a).1 = (calculate_relevance_score c b).1 ∧
        get_price a = get_price b ∧
        (calculate_relevance_score c a).2.2 ≤ (calculate_relevance_score c b).2.2)) ∧
    ∀ k : ℚ × ℚ × String,
      (rank_products_by_criteria products (some c)).filter
        (fun x => decide (calculate_relevance_score c x = k)) =
      products.filter (fun x => decide (calculate_relevance_score c x = k)) := by
  cases products with
  | nil => simp [rank_products_by_criteria]
  | cons a0 l0 =>
    set r : Product → Product → Prop := fun x y =>
      rankKeyLE (calculate_relevance_score c x) (calculate_relevance_score c y) = true
      with hr
    have hrank : rank_products_by_criteria (a0 :: l0) (some c) =
        List.insertionSort r (a0 :: l0) := by
      simp [rank_products_by_criteria, hr]
    haveI : IsTotal Product r := ⟨fun x y => by
      have h := rankKeyLE_total (calculate_relevance_score c x) (calculate_relevance_score c y)
      simpa [hr, Bool.or_eq_true] using h⟩
    haveI : IsTrans Product r := ⟨fun x y z hxy hyz =>
      rankKeyLE_trans _ _ _ hxy hyz⟩
    rw [hrank]
    refine ⟨List.perm_insertionSort r (a0 :: l0), ?_, ?_⟩
    · exact (List.sorted_insertionSort r (a0 :: l0)).imp (fun h => rankKeyLE_claim_rel h)
    · intro k
      set pk : Product → Bool := fun x => decide (calculate_relevance_score c x = k) with hpk
      have hall : ∀ x ∈ (a0 :: l0).filter pk, calculate_relevance_score c x = k := by
        intro x hx
        have := List.of_mem_filter hx
        simpa [hpk] using this
      have hpair : ((a0 :: l0).filter pk).Pairwise r := by
        apply List.pairwise_of_forall_mem_list
        intro x hx y hy
        have hx1 := hall x hx
        have hy1 := hall y hy
        exact rankKeyLE_of_eq (hx1.trans hy1.symm)
      have hsub : List.Sublist ((a0 :: l0).filter pk) (List.insertionSort r (a0 :: l0)) :=
        List.sublist_insertionSort hpair (List.filter_sublist _)
      have hperm2 : List.Perm ((List.insertionSort r (a0 :: l0)).filter pk)
          ((a0 :: l0).filter pk) :=
        (List.perm_insertionSort r (a0 :: l0)).filter pk
      have hfix : ((a0 :: l0).filter pk).filter pk = (a0 :: l0).filter pk :=
        List.filter_eq_self.mpr (fun x hx => List.of_mem_filter hx)
      have h4 : List.Sublist ((a0 :: l0).filter pk)
          ((List.insertionSort r (a0 :: l0)).filter pk) := by
        have := hsub.filter pk
        rwa [hfix] at this
      exact (h4.eq_of_length hperm2.length_eq.symm).symm

theorem productMatchesCategory_of_no_cats {category_lower : String}
    {search_tags : List String} {p : Product}
    (h : (filterProductCategories p).isEmpty = true) :
    productMatchesCategory category_lower search_tags p = false := by
  unfold productMatchesCategory
  simp [h]

/-- C9: for every non-empty category string, filtering excludes every
product from which no normalized category tag can be extracted. -/
theorem filter_excludes_products_without_categories (products : List Product)
    (category : String) (hc : category ≠ "") :
    (filter_products_by_category products category).all
      (fun p => !(filterProductCategories p).isEmpty) = true := by
  rw [filter_by_category_eq_filter products hc, List.all_eq_true]
  intro p hp
  have hm := List.of_mem_filter hp
  by_cases he : (filterProductCategories p).isEmpty
  · rw [productMatchesCategory_of_no_cats he] at hm
    exact absurd hm (by simp)
  · simpa using he

/-- Witness for C9 at a concrete list containing a product without category
fields, filtered by the category `tv`. -/
theorem filter_excludes_products_without_categories_witness :
    "tv" ≠ "" ∧
    (filter_products_by_category [tvTaggedProduct, noCategoryProduct] "tv").all
      (fun p => !(filterProductCategories p).isEmpty) = true :=
  ⟨by decide,
   filter_excludes_products_without_categories [tvTaggedProduct, noCategoryProduct]
     "tv" (by decide)⟩

/-- C6: the cross-sell recommender never returns more than `max_results`
suggestions, both on an explicit catalog and on the live-catalog variant;
in particular requesting one yields at most one suggestion. -/
theorem cross_sell_at_most_max_results (cart_items : List CrossSellCartItemInput)
    (catalog : List CrossSellItem) (products : List Product) (max_results : Nat) :
    (_get_cross_sell_suggestions cart_items catalog max_results).length ≤ max_results ∧
    (_get_cross_sell_suggestions_from_db cart_items products max_results).length ≤
      max_results ∧
    (_get_cross_sell_suggestions cart_items catalog 1).length ≤ 1 := by
  refine ⟨?_, ?_, ?_⟩
  · unfold _get_cross_sell_suggestions
    split
    · simp
    · exact List.length_take_le _ _
  · unfold _get_cross_sell_suggestions_from_db
    split
    · simp
    · exact List.length_take_le _ _
  · unfold _get_cross_sell_suggestions
    split
    · simp
    · exact List.length_take_le _ _

theorem mem_of_filter_filter {α : Type} {l : List α} {p q : α → Bool} {x : α}
    (h : x ∈ (l.filter p).filter q) : x ∈ l :=
  List.mem_of_mem_filter (List.mem_of_mem_filter h)

theorem mem_suggestions_pushSuggestion {st : PushState} {item x : CrossSellItem}
    (h : x ∈ (pushSuggestion st item).suggestions) : x ∈ st.suggestions ∨ x = item := by
  unfold pushSuggestion at h
  simp only [] at h
  split at h
  · exact Or.inl h
  · rcases List.mem_append.mp h with h1 | h1
    · exact Or.inl h1
    · exact Or.inr (by simpa using h1)

theorem mem_suggestions_pushAll {items : List CrossSellItem} {st : PushState}
    {x : CrossSellItem} (h : x ∈ (pushAll st items).suggestions) :
    x ∈ st.suggestions ∨ x ∈ items := by
  induction items generalizing st with
  | nil => exact Or.inl h
  | cons a rest ih =>
    have h0 : pushAll st (a :: rest) = pushAll (pushSuggestion st a) rest := by
      simp [pushAll]
    rw [h0] at h
    rcases ih h with h1 | h1
    · rcases mem_suggestions_pushSuggestion h1 with h2 | h2
      · exact Or.inl h2
      · exact Or.inr (by simp [h2])
    · exact Or.inr (List.mem_cons_of_mem _ h1)

theorem mem_suggestions_pushTopPriorityIf {cond : Bool} {st : PushState} {n : Nat}
    {candidates : List CrossSellItem} {x : CrossSellItem}
    (h : x ∈ (pushTopPriorityIf cond st n candidates).suggestions) :
    x ∈ st.suggestions ∨ x ∈ candidates := by
  unfold pushTopPriorityIf at h
  split at h
  · rcases mem_suggestions_pushAll h with h1 | h1
    · exact Or.inl h1
    · have h2 := List.mem_of_mem_take h1
      unfold _sort_by_priority at h2
      exact Or.inr ((List.mem_insertionSort _).mp h2)
  · exact Or.inl h

theorem mem_dedupeBySkuGo {l : List CrossSellItem} {seen : List String}
    {x : CrossSellItem} (h : x ∈ dedupeBySkuGo l seen) : x ∈ l := by
  induction l generalizing seen with
  | nil => simp [dedupeBySkuGo] at h
  | cons a rest ih =>
    unfold dedupeBySkuGo at h
    simp only [] at h
    split at h
    · exact List.mem_cons_of_mem _ (ih h)
    · rcases List.mem_cons.mp h with h1 | h1
      · simp [h1]
      · exact List.mem_cons_of_mem _ (ih h1)

theorem crossSellEligible_mem {cart_items : List CrossSellCartItemInput}
    {catalog : List CrossSellItem} {x : CrossSellItem}
    (h : x ∈ crossSellEligible cart_items catalog) :
    (_get_cart_identifiers cart_items).1.contains
      (_normalize_text (x.sku.getD "")) = false ∧
    (_get_cart_identifiers cart_items).1.contains
      (_normalize_text (x.id.getD "")) = false ∧
    (_get_cart_identifiers cart_items).2.contains
      (_normalize_text (x.name.getD "")) = false := by
  unfold crossSellEligible at h
  have h1 := mem_dedupeBySkuGo h
  have h2 := List.of_mem_filter h1
  simp only [Bool.and_eq_true, Bool.not_eq_true'] at h2
  exact ⟨h2.1.1, h2.1.2, h2.2⟩

theorem mem_crossSellPushes {cart_items : List CrossSellCartItemInput}
    {eligible : List CrossSellItem} {x : CrossSellItem}
    (h : x ∈ (crossSellPushes cart_items eligible).suggestions) : x ∈ eligible := by
  unfold crossSellPushes at h
  simp only [] at h
  rcases mem_suggestions_pushAll h with h | h
  · rcases mem_suggestions_pushTopPriorityIf h with h | h
    swap
    · exact mem_of_filter_filter h
    rcases mem_suggestions_pushTopPriorityIf h with h | h
    swap
    · exact mem_of_filter_filter h
    rcases mem_suggestions_pushTopPriorityIf h with h | h
    swap
    · exact mem_of_filter_filter h
    rcases mem_suggestions_pushTopPriorityIf h with h | h
    swap
    · exact mem_of_filter_filter h
    rcases mem_suggestions_pushTopPriorityIf h with h | h
    swap
    · exact mem_of_filter_filter h
    rcases mem_suggestions_pushTopPriorityIf h with h | h
    swap
    · exact mem_of_filter_filter h
    rcases mem_suggestions_pushTopPriorityIf h with h | h
    swap
    · exact mem_of_filter_filter h
    rcases mem_suggestions_pushTopPriorityIf h with h | h
    swap
    · exact mem_of_filter_filter h
    rcases mem_suggestions_pushTopPriorityIf h with h | h
    swap
    · exact List.mem_of_mem_filter h
    simp [PushState.suggestions] at h
  · rcases List.mem_map.mp h with ⟨pr, hpr, hx⟩
    have hpr2 := (List.mem_insertionSort _).mp hpr
    rcases List.mem_map.mp hpr2 with ⟨item, hitem, hpr3⟩
    have hxi : x = item := by rw [← hx, ← hpr3]
    subst hxi
    exact List.mem_of_mem_filter hitem

theorem cross_sell_suggestion_not_in_cart {cart_items : List CrossSellCartItemInput}
    {catalog : List CrossSellItem} {max_results : Nat} {item : CrossSellItem}
    (h : item ∈ _get_cross_sell_suggestions cart_items catalog max_results) :
    (_get_cart_identifiers cart_items).1.contains
      (_normalize_text (item.sku.getD "")) = false ∧
    (_get_cart_identifiers cart_items).1.contains
      (_normalize_text (item.id.getD "")) = false ∧
    (_get_cart_identifiers cart_items).2.contains
      (_normalize_text (item.name.getD "")) = false := by
  unfold _get_cross_sell_suggestions at h
  split at h
  · simp at h
  · exact crossSellEligible_mem (mem_crossSellPushes (List.mem_of_mem_take h))

/-- C5 counterexample: the claim as stated also forbids a suggestion whose
name matches a cart item's identifier, but the source only compares SKU and
id against cart identifiers and name against cart names.  With a cart item
of identifier `ABC` (normalized `abc`) and a catalog item named `abc` with
unrelated SKU/id, the catalog item is suggested even though its normalized
name equals the cart identifier. -/
theorem cross_sell_cart_identifier_counterexample :
    _get_cross_sell_suggestions crossSellCartCE [crossSellItemCE] 1 = [crossSellItemCE] ∧
    (_get_cart_identifiers crossSellCartCE).1 = ["abc"] ∧
    _normalize_text (crossSellItemCE.name.getD "") = "abc" := by
  refine ⟨?_, ?_, ?_⟩ <;> with_unfolding_all decide

/-- C5 (amended): no suggestion returned by the cross-sell recommender
(on an explicit catalog or on the live-catalog variant) has a SKU or
identifier whose normalization matches a cart item's normalized identifier,
nor a name whose normalization matches a cart item's normalized name. -/
theorem cross_sell_never_suggests_cart_items
    (cart_items : List CrossSellCartItemInput) (catalog : List CrossSellItem)
    (products : List Product) (max_results : Nat) :
    ((_get_cross_sell_suggestions cart_items catalog max_results).all fun item =>
      !((_get_cart_identifiers cart_items).1.contains
        (_normalize_text (item.sku.getD ""))) &&
      !((_get_cart_identifiers cart_items).1.contains
        (_normalize_text (item.id.getD ""))) &&
      !((_get_cart_identifiers cart_items).2.contains
        (_normalize_text (item.name.getD "")))) = true ∧
    ((_get_cross_sell_suggestions_from_db cart_items products max_results).all fun item =>
      !((_get_cart_identifiers cart_items).1.contains
        (_normalize_text (item.sku.getD ""))) &&
      !((_get_cart_identifiers cart_items).1.contains
        (_normalize_text (item.id.getD ""))) &&
      !((_get_cart_identifiers cart_items).2.contains
        (_normalize_text (item.name.getD "")))) = true := by
  constructor
  · rw [List.all_eq_true]
    intro item hmem
    have h := cross_sell_suggestion_not_in_cart hmem
    simp only [h.1, h.2.1, h.2.2, Bool.not_false, Bool.and_self]
  · rw [List.all_eq_true]
    intro item hmem
    unfold _get_cross_sell_suggestions_from_db at hmem
    split at hmem
    · simp at hmem
    · simp only [] at hmem
      have h1 := List.mem_of_mem_take hmem
      split at h1
      · have h := cross_sell_suggestion_not_in_cart (List.mem_of_mem_filter h1)
        simp only [h.1, h.2.1, h.2.2, Bool.not_false, Bool.and_self]
      · have h := cross_sell_suggestion_not_in_cart h1
        simp only [h.1, h.2.1, h.2.2, Bool.not_false, Bool.and_self]

theorem selectByPriceLoop_cons (limit : Nat) (p : Product) (rest : List Product)
    (seen : List String) (selected : List Product) :
    selectByPriceLoop limit (p :: rest) seen selected =
      if (p.id.getD "" ≠ "" && seen.contains (p.id.getD "")) = true then
        selectByPriceLoop limit rest seen selected
      else
        (if limit ≤ (selected ++ [p]).length then
          (selected ++ [p], if p.id.getD "" ≠ "" then p.id.getD "" :: seen else seen)
        else
          selectByPriceLoop limit rest
            (if p.id.getD "" ≠ "" then p.id.getD "" :: seen else seen)
            (selected ++ [p])) := rfl

theorem selectByPriceLoop_spec (limit : Nat) (seen0 : List String) :
    ∀ (l : List Product) (seen : List String) (selected : List Product),
    (∀ s ∈ seen0, s ∈ seen) →
    ∃ t : List Product,
      (selectByPriceLoop limit l seen selected).1 = selected ++ t ∧
      List.Sublist t l ∧
      (selected.length < limit → selected.length + t.length ≤ limit) ∧
      (∀ p ∈ t, p.id.getD "" = "" ∨ p.id.getD "" ∉ seen0) := by
  intro l
  induction l with
  | nil =>
    intro seen selected hsub
    exact ⟨[], by simp [selectByPriceLoop], List.nil_sublist _,
      fun h => by simpa using Nat.le_of_lt h, by simp⟩
  | cons p rest ih =>
    intro seen selected hsub
    rw [selectByPriceLoop_cons]
    by_cases hskip : (p.id.getD "" ≠ "" && seen.contains (p.id.getD "")) = true
    · rw [if_pos hskip]
      obtain ⟨t, h1, h2, h3, h4⟩ := ih seen selected hsub
      exact ⟨t, h1, h2.cons p, h3, h4⟩
    · rw [if_neg hskip]
      have hfresh : p.id.getD "" = "" ∨ p.id.getD "" ∉ seen0 := by
        by_cases hid : p.id.getD "" = ""
        · exact Or.inl hid
        · refine Or.inr fun hmem => ?_
          have hmem2 : p.id.getD "" ∈ seen := hsub _ hmem
          have hcontains : seen.contains (p.id.getD "") = true :=
            List.elem_eq_true_of_mem hmem2
          exact hskip (by rw [Bool.and_eq_true]; exact ⟨decide_eq_true hid, hcontains⟩)
      have hsub1 : ∀ s ∈ seen0, s ∈
          (if p.id.getD "" ≠ "" then p.id.getD "" :: seen else seen) := by
        intro s hs
        split
        · exact List.mem_cons_of_mem _ (hsub s hs)
        · exact hsub s hs
      by_cases hstop : limit ≤ (selected ++ [p]).length
      · rw [if_pos hstop]
        refine ⟨[p], rfl, (List.nil_sublist rest).cons₂ p, ?_, ?_⟩
        · intro hlt
          simpa using Nat.succ_le_of_lt hlt
        · intro q hq
          rw [List.mem_singleton] at hq
          subst hq
          exact hfresh
      · rw [if_neg hstop]
        obtain ⟨t, h1, h2, h3, h4⟩ := ih _ (selected ++ [p]) hsub1
        refine ⟨p :: t, ?_, h2.cons₂ p, ?_, ?_⟩
        · rw [h1, List.append_assoc]
          rfl
        · intro hlt
          have hlt1 : (selected ++ [p]).length < limit := Nat.lt_of_not_le hstop
          have h5 := h3 hlt1
          simp only [List.length_append, List.length_singleton, List.length_cons] at h5 ⊢
          omega
        · intro q hq
          rcases List.mem_cons.mp hq with hq | hq
          · subst hq; exact hfresh
          · exact h4 q hq

theorem select_products_by_price_props (products : List Product) (preference : String)
    (limit : Nat) (seen_ids : List String) :
    List.Sublist (_select_products_by_price products preference limit seen_ids).1
      (_sort_products_by_price products preference) ∧
    (_select_products_by_price products preference limit seen_ids).1.length ≤ limit ∧
    ∀ p ∈ (_select_products_by_price products preference limit seen_ids).1,
      p.id.getD "" = "" ∨ p.id.getD "" ∉ seen_ids := by
  unfold _select_products_by_price
  split
  · simp
  · rename_i hguard
    simp only [Bool.or_eq_true, not_or] at hguard
    have hlim : 0 < limit := by
      rcases Nat.eq_zero_or_pos limit with h0 | h0
      · exact absurd (by simp [h0]) hguard.2
      · exact h0
    obtain ⟨t, h1, h2, h3, h4⟩ := selectByPriceLoop_spec limit seen_ids
      (_sort_products_by_price products preference) seen_ids [] (fun s hs => hs)
    simp only [List.nil_append] at h1
    rw [h1]
    exact ⟨h2, by simpa using h3 hlim, h4⟩

theorem sort_products_by_price_perm (products : List Product) (preference : String) :
    List.Perm (_sort_products_by_price products preference) products := by
  unfold _sort_products_by_price
  split
  · rename_i h
    simp only [List.isEmpty_eq_true] at h
    rw [h]
  · simp only []
    have h3 : (products.map (fun p => (_extract_price_from_product p, p))).map Prod.snd =
        products := by
      rw [List.map_map]
      exact List.map_id products
    by_cases hpref :
        (pyLower (if (preference == "") = true then "low" else preference) == "high") = true
    · rw [if_pos hpref]
      have h1 : List.Perm
          (List.insertionSort (fun a b => priceSortKey a.1 ≤ priceSortKey b.1)
            (products.map (fun p => (_extract_price_from_product p, p)))).reverse
          (products.map (fun p => (_extract_price_from_product p, p))) :=
        (List.reverse_perm _).trans (List.perm_insertionSort _ _)
      have h2 := h1.map Prod.snd
      rwa [h3] at h2
    · rw [if_neg hpref]
      have h1 : List.Perm
          (List.insertionSort (fun a b => priceSortKey a.1 ≤ priceSortKey b.1)
            (products.map (fun p => (_extract_price_from_product p, p))))
          (products.map (fun p => (_extract_price_from_product p, p))) :=
        List.perm_insertionSort _ _
      have h2 := h1.map Prod.snd
      rwa [h3] at h2

theorem sort_products_by_price_low_sorted (products : List Product) :
    (_sort_products_by_price products "low").Pairwise (fun a b =>
      priceSortKey (_extract_price_from_product a) ≤
        priceSortKey (_extract_price_from_product b)) := by
  unfold _sort_products_by_price
  split
  · exact List.Pairwise.nil
  · simp only []
    rw [if_neg (show ¬(pyLower (if ("low" == "") = true then "low" else "low") == "high") = true
      from by decide)]
    set r : ℚ × Product → ℚ × Product → Prop :=
      fun a b => priceSortKey a.1 ≤ priceSortKey b.1 with hrdef
    haveI : IsTotal (ℚ × Product) r := ⟨fun a b => le_total _ _⟩
    haveI : IsTrans (ℚ × Product) r := ⟨fun a b c h1 h2 => le_trans h1 h2⟩
    have hsorted := List.sorted_insertionSort r
      (products.map (fun p => (_extract_price_from_product p, p)))
    rw [List.pairwise_map]
    refine hsorted.imp_of_mem ?_
    intro a b ha hb hr
    have hmema := List.mem_map.mp ((List.mem_insertionSort r).mp ha)
    have hmemb := List.mem_map.mp ((List.mem_insertionSort r).mp hb)
    rcases hmema with ⟨pa, _, hpa⟩
    rcases hmemb with ⟨pb, _, hpb⟩
    have ha1 : a.1 = _extract_price_from_product a.2 := by rw [← hpa]
    have hb1 : b.1 = _extract_price_from_product b.2 := by rw [← hpb]
    have hr2 : priceSortKey a.1 ≤ priceSortKey b.1 := hr
    rwa [ha1, hb1] at hr2

theorem sort_products_by_price_high_eq_reverse (products : List Product) :
    _sort_products_by_price products "high" =
      (_sort_products_by_price products "low").reverse := by
  cases products with
  | nil => rfl
  | cons a l =>
    unfold _sort_products_by_price
    simp only [List.isEmpty_cons, Bool.false_eq_true, if_false]
    rw [if_pos (show (pyLower (if ("high" == "") = true then "low" else "high") == "high") = true
        from by decide),
      if_neg (show ¬(pyLower (if ("low" == "") = true then "low" else "low") == "high") = true
        from by decide)]
    rw [List.map_reverse]

/-- C7 counterexample: `_select_products_by_price` never checks for a
positive price, so a slot can be filled with a non-positive-priced item:
with a catalog containing only a zero-priced TV, the home-theater bundle for
preference `low` contains that zero-priced TV.  Moreover, for preference
`high` the wholesale reversal puts non-positive prices first, so the
zero-priced TV precedes the TV priced 100. -/
theorem bundle_zero_price_counterexample :
    _extract_price_from_product zeroPricedTV = 0 ∧
    _build_solution_bundle_catalog [zeroPricedTV] "low" = [zeroPricedTV] ∧
    _sort_products_by_price [zeroPricedTV, pricedTV100] "high" =
      [zeroPricedTV, pricedTV100] ∧
    0 < _extract_price_from_product pricedTV100 := by
  refine ⟨?_, ?_, ?_, ?_⟩ <;> with_unfolding_all decide

/-- C7 (amended): slot filling orders candidates by the key "price if
positive, infinite otherwise" — ascending for `low` (so the cheapest
positive-priced eligible item is chosen first, and non-positive-priced
items sort last but are not excluded), wholesale-reversed for `high`; the
selection is a prefix-respecting sublist of that order of length at most
the slot limit, skipping items whose non-empty id was already selected; and
the `medium` preference is coerced to `low`. -/
theorem bundle_price_selection_amended (products : List Product)
    (preference : String) (limit : Nat) (seen_ids : List String) :
    List.Perm (_sort_products_by_price products preference) products ∧
    (_sort_products_by_price products "low").Pairwise (fun a b =>
      priceSortKey (_extract_price_from_product a) ≤
        priceSortKey (_extract_price_from_product b)) ∧
    List.Sublist (_select_products_by_price products preference limit seen_ids).1
      (_sort_products_by_price products preference) ∧
    (_select_products_by_price products preference limit seen_ids).1.length ≤ limit ∧
    ((_select_products_by_price products preference limit seen_ids).1.all fun p =>
      p.id.getD "" == "" || !(seen_ids.contains (p.id.getD ""))) = true ∧
    _sort_products_by_price products "high" =
      (_sort_products_by_price products "low").reverse ∧
    resolve_price_preference "medium" = some "low" := by
  obtain ⟨hsub, hlen, hfresh⟩ :=
    select_products_by_price_props products preference limit seen_ids
  refine ⟨sort_products_by_price_perm products preference,
    sort_products_by_price_low_sorted products, hsub, hlen, ?_,
    sort_products_by_price_high_eq_reverse products, by decide⟩
  rw [List.all_eq_true]
  intro p hp
  rcases hfresh p hp with h | h
  · simp [h]
  · simp [h]

theorem computeCheckoutSubtotal_isOk_iff (items : List CheckoutCartItemInput)
    (currency : String) :
    (computeCheckoutSubtotal items currency).isOk = true ↔
      ∀ i ∈ items, 0 < _to_minor_amount i.unit_amount_major currency := by
  induction items with
  | nil => simp [computeCheckoutSubtotal, Except.isOk, Except.toBool]
  | cons i rest ih =>
    rw [computeCheckoutSubtotal]
    by_cases hu : _to_minor_amount i.unit_amount_major currency ≤ 0
    · rw [if_pos hu]
      simp only [Except.isOk, Except.toBool, List.mem_cons]
      constructor
      · intro h; exact absurd h (by simp)
      · intro h
        exact absurd (h i (Or.inl rfl)) (not_lt.mpr hu)
    · rw [if_neg hu]
      cases hrec : computeCheckoutSubtotal rest currency with
      | ok s =>
        simp only [Except.isOk, Except.toBool, List.mem_cons]
        constructor
        · intro _ j hj
          rcases hj with hj | hj
          · subst hj; exact lt_of_not_le hu
          · exact (ih.mp (by rw [hrec]; rfl)) j hj
        · intro _; trivial
      | error e =>
        simp only [Except.isOk, Except.toBool, List.mem_cons]
        constructor
        · intro h; exact absurd h (by simp)
        · intro h
          have : (computeCheckoutSubtotal rest currency).isOk = true :=
            ih.mpr (fun j hj => h j (Or.inr hj))
          rw [hrec] at this
          exact absurd this (by simp [Except.isOk, Except.toBool])

theorem computeCheckoutSubtotal_ok_sum {items : List CheckoutCartItemInput}
    {currency : String} {s : ℤ}
    (h : computeCheckoutSubtotal items currency = .ok s) :
    s = (items.map (fun i =>
      _to_minor_amount i.unit_amount_major currency * (i.quantity : ℤ))).sum ∧
    0 ≤ s := by
  induction items generalizing s with
  | nil =>
    rw [computeCheckoutSubtotal] at h
    cases h
    simp
  | cons i rest ih =>
    rw [computeCheckoutSubtotal] at h
    by_cases hu : _to_minor_amount i.unit_amount_major currency ≤ 0
    · rw [if_pos hu] at h
      cases h
    · rw [if_neg hu] at h
      cases hrec : computeCheckoutSubtotal rest currency with
      | ok s0 =>
        rw [hrec] at h
        cases h
        obtain ⟨h1, h2⟩ := ih hrec
        constructor
        · rw [List.map_cons, List.sum_cons, h1]
        · have hup : 0 < _to_minor_amount i.unit_amount_major currency := lt_of_not_le hu
          have : 0 ≤ _to_minor_amount i.unit_amount_major currency * (i.quantity : ℤ) :=
            mul_nonneg (le_of_lt hup) (by positivity)
          omega
      | error e =>
        rw [hrec] at h
        cases h

theorem pyIntTruncQ_tenth (s : ℤ) : pyIntTruncQ ((s : ℚ) * (1 / 10)) = s.tdiv 10 := by
  have hq : (s : ℚ) * (1 / 10) = (s : ℚ) / ((10 : ℕ) : ℚ) := by
    push_cast
    ring
  rcases le_or_lt 0 s with hs | hs
  · have hq0 : 0 ≤ (s : ℚ) * (1 / 10) := by
      apply mul_nonneg _ (by norm_num)
      exact_mod_cast hs
    rw [pyIntTruncQ, if_pos hq0, hq, Rat.floor_intCast_div_natCast]
    exact (Int.tdiv_eq_ediv hs (by norm_num)).symm
  · have hq0 : ¬(0 ≤ (s : ℚ) * (1 / 10)) := by
      rw [not_le]
      apply mul_neg_of_neg_of_pos _ (by norm_num)
      exact_mod_cast hs
    rw [pyIntTruncQ, if_neg hq0]
    have hceil : ⌈(s : ℚ) * (1 / 10)⌉ = -⌊-((s : ℚ) * (1 / 10))⌋ := by
      rw [← Int.ceil_neg, neg_neg]
    rw [hceil]
    have hneg : -((s : ℚ) * (1 / 10)) = ((-s : ℤ) : ℚ) / ((10 : ℕ) : ℚ) := by
      push_cast
      ring
    rw [hneg, Rat.floor_intCast_div_natCast]
    have h1 : (-s).tdiv 10 = -s / (10 : ℤ) :=
      Int.tdiv_eq_ediv (by omega) (by norm_num)
    have h2 : s.tdiv 10 = -((-s).tdiv 10) := by
      rw [Int.neg_tdiv, neg_neg]
    rw [h2, h1]
    norm_num

theorem shipping_condition_iff (s : ℤ) : ((s : ℚ) / 100 < 50) ↔ s < 5000 := by
  rw [div_lt_iff₀ (by norm_num : (0 : ℚ) < 100)]
  constructor
  · intro h
    exact_mod_cast h
  · intro h
    exact_mod_cast h

/-- C10: the checkout-totals computation fails exactly when some cart line's
unit amount converts to a non-positive minor amount; on success the totals
carry zero tax, a ten-percent truncated discount exactly when the promo code
equals `WELCOME10` case-insensitively, a 500-minor-unit shipping charge
exactly when the currency is EUR and the subtotal is below 5000 minor units,
and a grand total of `max 0 (subtotal - discount) + shipping`. -/
theorem compute_checkout_totals_spec (items : List CheckoutCartItemInput)
    (currency : String) (promo_code : Option String) :
    ((_compute_checkout_totals items currency promo_code).isOk = false ↔
      ∃ i ∈ items, _to_minor_amount i.unit_amount_major currency ≤ 0) ∧
    (match _compute_checkout_totals items currency promo_code with
     | .error _ => True
     | .ok t =>
        t.subtotal_minor = (items.map (fun i =>
          _to_minor_amount i.unit_amount_major currency * (i.quantity : ℤ))).sum ∧
        t.tax_minor = 0 ∧
        t.discount_minor =
          (if promoIsWelcome10 promo_code then t.subtotal_minor.tdiv 10 else 0) ∧
        t.shipping_minor =
          (if pyUpper currency = "EUR" ∧ t.subtotal_minor < 5000 then 500 else 0) ∧
        t.grand_total_minor =
          max 0 (t.subtotal_minor - t.discount_minor) + t.shipping_minor ∧
        t.currency = pyUpper currency) := by
  have hiso : (_compute_checkout_totals items currency promo_code).isOk =
      (computeCheckoutSubtotal items currency).isOk := by
    unfold _compute_checkout_totals
    cases computeCheckoutSubtotal items currency with
    | ok s => rfl
    | error e => rfl
  constructor
  · rw [hiso]
    rw [Bool.eq_false_iff]
    rw [ne_eq, computeCheckoutSubtotal_isOk_iff]
    push_neg
    constructor
    · rintro ⟨i, hi, hle⟩
      exact ⟨i, hi, hle⟩
    · rintro ⟨i, hi, hle⟩
      exact ⟨i, hi, hle⟩
  · unfold _compute_checkout_totals
    cases hsub : computeCheckoutSubtotal items currency with
    | error e => exact trivial
    | ok s =>
      simp only []
      obtain ⟨hsum, hpos⟩ := computeCheckoutSubtotal_ok_sum hsub
      refine ⟨hsum, by trivial, ?_, ?_, ?_, by trivial⟩
      · cases promo_code with
        | none => rfl
        | some p =>
          simp only [promoIsWelcome10]
          by_cases hw : (pyUpper p == "WELCOME10") = true
          · have hp : p ≠ "" := by
              intro hp0
              subst hp0
              exact absurd hw (by decide)
            rw [if_pos hw]
            have hcond : (p ≠ "" && pyUpper p == "WELCOME10") = true := by
              rw [Bool.and_eq_true]
              exact ⟨decide_eq_true hp, hw⟩
            rw [if_pos hcond]
            exact pyIntTruncQ_tenth s
          · rw [if_neg hw]
            have hcond : ¬((p ≠ "" && pyUpper p == "WELCOME10") = true) := by
              rw [Bool.and_eq_true]
              rintro ⟨-, h2⟩
              exact hw h2
            rw [if_neg hcond]
      · have hiff : ((pyUpper currency == "EUR") && decide ((s : ℚ) / 100 < 50)) = true ↔
            pyUpper currency = "EUR" ∧ s < 5000 := by
          rw [Bool.and_eq_true, decide_eq_true_eq, beq_iff_eq, shipping_condition_iff]
        exact if_congr hiff rfl rfl
      · have htax : (0 : ℤ) ≤ max 0 (s - (if (match promo_code with
            | some p => p ≠ "" && pyUpper p == "WELCOME10"
            | none => false) = true then pyIntTruncQ ((s : ℚ) * (1 / 10)) else 0)) :=
          le_max_left _ _
        have hship : (0 : ℤ) ≤ (if ((pyUpper currency == "EUR") &&
            decide ((s : ℚ) / 100 < 50)) = true then 500 else 0) := by
          split <;> norm_num
        rw [max_eq_right (by positivity)]

end ElectronicsDemo
